import Mathlib

/-!
Shallow embedding of `src/app.py` ("Mindful Moments"), the emotion
normalizer, the music track selector, the recent-history rendering and
the detect-button handler, together with theorems settling the spec's
claims about them.

Conventions of the embedding:
* Python floats that are only passed through or compared (classifier
  scores) are modelled as rationals `ℚ`; no floating-point arithmetic
  occurs in the modelled code.
* Python exceptions (IndexError from `[0]` on an empty list, network or
  auth errors raised by `sp.search`) are modelled with `Except Unit`:
  `.error ()` means the Python code raises at that point.
* The outbound network calls (Hugging Face classifier, Spotify search)
  are modelled by passing their outcome in as an argument: the
  classifier outcome is the list `emotion_model(text)` returns, the
  Spotify outcome is `Except Unit (List Track)` (`.error` = the call
  raised, `.ok items` = the parsed `results["tracks"]["items"]` list).
* `random.choice(tracks)` is modelled by an extra argument
  `pick : Nat`; the chosen element is `tracks[pick % len(tracks)]`,
  so every member of the list is reachable and only members are.
-/

namespace MindfulMoments

/-- One element of the list returned by `emotion_model(text)`:
a dict `{"label": ..., "score": ...}`. -/
structure RawResult where
  label : String
  score : ℚ
deriving Repr, DecidableEq

/-- The dict `{"label": ..., "score": ...}` returned by `detect_emotion_ai`. -/
structure NormResult where
  label : String
  score : ℚ
deriving Repr, DecidableEq

/-- The `label_map` dict of `detect_emotion_ai` (src/app.py lines 26-34),
as an association list. -/
def label_map : List (String × String) :=
  [("anger", "anger"), ("disgust", "anger"), ("fear", "fear"),
   ("joy", "joy"), ("neutral", "neutral"), ("sadness", "sadness"),
   ("surprise", "surprise")]

/-- Python `dict.get(key, default)` on a string-keyed dict modelled as an
association list. -/
def dict_get (d : List (String × String)) (key dflt : String) : String :=
  (d.lookup key).getD dflt

/-- The `love_words` list of `detect_emotion_ai` (src/app.py lines 36-39). -/
def love_words : List String :=
  ["love", "propose", "married", "engaged",
   "relationship", "crush", "girlfriend", "boyfriend"]

/-- Python `s.lower()` (ASCII lower-casing, the only case the inputs
exercise), computed characterwise over the string's character list. -/
def pyLower (s : String) : String :=
  ⟨s.data.map Char.toLower⟩

/-- Truthiness of Python `s.strip()`: the stripped string is non-empty
iff `s` has a character that is not whitespace. -/
def strip_truthy (s : String) : Bool :=
  s.data.any (fun c => !c.isWhitespace)

/-- `startsWithList p s` is true iff `p` is an initial segment of `s`. -/
def startsWithList : List Char → List Char → Bool
  | [], _ => true
  | _ :: _, [] => false
  | p :: ps, c :: cs => p == c && startsWithList ps cs

/-- `containsList pat s` is true iff `pat` occurs as a contiguous run
inside `s`; models Python's substring test `pat in s`. -/
def containsList (pat : List Char) : List Char → Bool
  | [] => startsWithList pat []
  | c :: cs => startsWithList pat (c :: cs) || containsList pat cs

/-- Python `pat in s` on strings (substring containment, not whole-word). -/
def strContains (s pat : String) : Bool :=
  containsList pat.toList s.toList

/-- `any(word in text.lower() for word in love_words)`
(src/app.py line 41). -/
def hasLoveWord (text : String) : Bool :=
  love_words.any (fun word => strContains (pyLower text) word)

/-- `detect_emotion_ai` (src/app.py lines 22-47). The outcome of the
`emotion_model(text)` call is passed in as `modelOutput`; `[0]` on an
empty list raises IndexError, modelled by `.error ()`. -/
def detect_emotion_ai (text : String) (modelOutput : List RawResult) :
    Except Unit NormResult :=
  match modelOutput with
  | [] => Except.error ()
  | result :: _ =>
    let label := pyLower result.label
    if hasLoveWord text then
      Except.ok ⟨"love", 0.95⟩
    else
      Except.ok ⟨dict_get label_map label "neutral", result.score⟩

/-- Modelled from the spec (§4.1 step 2), for the refinement claim about
the label table: lower-case the raw label and look it up in the fixed
table {anger→anger, disgust→anger, fear→fear, joy→joy, neutral→neutral,
sadness→sadness, surprise→surprise}, any other label mapping to neutral. -/
def spec_category_of_label (rawLabel : String) : String :=
  let l := pyLower rawLabel
  if l = "anger" then "anger"
  else if l = "disgust" then "anger"
  else if l = "fear" then "fear"
  else if l = "joy" then "joy"
  else if l = "neutral" then "neutral"
  else if l = "sadness" then "sadness"
  else if l = "surprise" then "surprise"
  else "neutral"

/-- The seven categories of the closed emotion taxonomy (spec §3). -/
def emotion_categories : List String :=
  ["joy", "sadness", "anger", "fear", "love", "surprise", "neutral"]

/-- One Spotify track as consumed by `get_spotify_full_track`:
`track["id"]`, `track["name"]`, and the names of `track["artists"]`. -/
structure Track where
  id : String
  name : String
  artists : List String
deriving Repr, DecidableEq

/-- `SPOTIFY_QUERY_MAP` (src/app.py lines 62-70), as an association list. -/
def SPOTIFY_QUERY_MAP : List (String × String) :=
  [("joy", "happy upbeat energetic songs"),
   ("sadness", "sad emotional songs"),
   ("anger", "calm anger management music"),
   ("fear", "peaceful meditation background"),
   ("love", "romantic acoustic love songs"),
   ("surprise", "uplifting pop songs"),
   ("neutral", "chill lofi focus music")]

/-- `get_spotify_full_track` (src/app.py lines 72-82).
`searchOutcome` is the outcome of `sp.search(...)` followed by
`results.get("tracks", {}).get("items", [])`: `.error ()` when the
network call raises (the function has no try/except, so the exception
propagates), `.ok tracks` when it returns the item list. `pick` models
`random.choice`: the chosen track is `tracks[pick % len(tracks)]`
(the `getD` default is never used, the index being in bounds).
`track["artists"][0]` on a track with an empty artist list raises
IndexError, modelled by `.error ()`. -/
def get_spotify_full_track (emotion : String)
    (searchOutcome : Except Unit (List Track)) (pick : Nat) :
    Except Unit (Option (String × String × String)) :=
  let _query := dict_get SPOTIFY_QUERY_MAP emotion "relaxing background music"
  match searchOutcome with
  | Except.error e => Except.error e
  | Except.ok tracks =>
    match tracks with
    | [] => Except.ok none
    | t0 :: rest =>
      let track := (t0 :: rest).getD (pick % (t0 :: rest).length) t0
      match track.artists with
      | [] => Except.error ()
      | a :: _ =>
        Except.ok (some ("https://open.spotify.com/embed/track/" ++ track.id,
                         track.name, a))

/-- One entry of `st.session_state.history`
(appended at src/app.py lines 162-166). Timestamps are opaque naturals. -/
structure HistoryEntry where
  time : Nat
  emotion : String
  score : ℚ
deriving Repr, DecidableEq

/-- The history rendering selection `st.session_state.history[-5:][::-1]`
(src/app.py line 209), generalised over the window size `n`: Python's
`xs[-n:]` keeps the last `min(n, len)` elements, `[::-1]` reverses.
Both slices copy, so the history itself is untouched. -/
def recent (history : List HistoryEntry) (n : Nat) : List HistoryEntry :=
  (history.drop (history.length - n)).reverse

/-- The session state touched by the detect handler:
`st.session_state.history` and `st.session_state.current_emotion`. -/
structure SessionState where
  history : List HistoryEntry
  current_emotion : Option String
deriving Repr, DecidableEq

/-- User-visible notices emitted by the detect handler
(`st.success` / `st.warning`). -/
inductive UIMessage where
  | success (msg : String)
  | warning (msg : String)
deriving Repr, DecidableEq

/-- Outbound network calls the handler makes. -/
inductive DownstreamCall where
  | classifier (text : String)
deriving Repr, DecidableEq

/-- What one run of the detect-button block leaves behind. -/
structure HandlerResult where
  state : SessionState
  messages : List UIMessage
  calls : List DownstreamCall
  errored : Bool
deriving Repr, DecidableEq

/-- The detect-button handler (src/app.py lines 157-169). `modelOutput`
is what `emotion_model(user_text)` returns when invoked; `calls` records
the classifier invocation; `errored` is true when an exception escapes
the block (then the state mutations after the raising call never ran).
Truthiness of `user_text.strip()` is modelled by `strip_truthy`. -/
def detect_button_handler (userText : String) (modelOutput : List RawResult)
    (now : Nat) (s : SessionState) : HandlerResult :=
  if strip_truthy userText then
    match detect_emotion_ai userText modelOutput with
    | Except.error _ =>
      { state := s, messages := [], calls := [.classifier userText],
        errored := true }
    | Except.ok result =>
      { state := { history := s.history ++ [⟨now, result.label, result.score⟩],
                   current_emotion := some result.label },
        messages := [.success "Emotion Detected Successfully!"],
        calls := [.classifier userText],
        errored := false }
  else
    { state := s, messages := [.warning "Please enter some text."],
      calls := [], errored := false }

/-- Association-list lookup on a cons cell, with the boolean key test
rewritten as a propositional if. -/
theorem lookup_cons_eq_ite {β : Type} (a k : String) (b : β)
    (es : List (String × β)) :
    ((k, b) :: es).lookup a = if a = k then some b else es.lookup a := by
  rw [List.lookup_cons]
  cases hb : a == k with
  | true => simp [eq_of_beq hb]
  | false => simp [ne_of_beq_false hb]

/-- The `label_map.get(label, "neutral")` lookup agrees with the fixed
table stated in the spec (anger→anger, disgust→anger, fear→fear,
joy→joy, neutral→neutral, sadness→sadness, surprise→surprise, anything
else →neutral). -/
theorem dict_get_label_map_eq_spec (rawLabel : String) :
    dict_get label_map (pyLower rawLabel) "neutral" =
      spec_category_of_label rawLabel := by
  simp only [dict_get, label_map, spec_category_of_label,
    lookup_cons_eq_ite, List.lookup_nil]
  split_ifs <;> rfl

/-- The track chosen by indexed selection with in-list default is a
member of the list. -/
theorem getD_cons_mem (t0 : Track) (rest : List Track) (i : Nat) :
    (t0 :: rest).getD i t0 ∈ t0 :: rest := by
  rcases Nat.lt_or_ge i (t0 :: rest).length with h | h
  · rw [List.getD_eq_getElem?_getD, List.getElem?_eq_getElem h]
    exact List.getElem_mem h
  · rw [List.getD_eq_getElem?_getD, List.getElem?_eq_none h]
    exact List.mem_cons_self _ _

end MindfulMoments

open MindfulMoments

/-- C1: for every text containing a love-trigger substring after
lower-casing and every raw classifier result, `detect_emotion_ai`
returns label `love` with score exactly 0.95, overriding the raw
classifier label and score. -/
theorem C1_love_override (text : String) (raw : RawResult)
    (rest : List RawResult) (h : hasLoveWord text = true) :
    detect_emotion_ai text (raw :: rest) = Except.ok ⟨"love", 0.95⟩ := by
  simp [detect_emotion_ai, h]

/-- Witness for C1: the text "I just got engaged!" with raw result
(joy, 0.8) is normalized to (love, 0.95). -/
theorem C1_love_override_witness :
    hasLoveWord "I just got engaged!" = true ∧
    detect_emotion_ai "I just got engaged!" [⟨"joy", 0.8⟩] =
      Except.ok ⟨"love", 0.95⟩ :=
  ⟨by decide, C1_love_override "I just got engaged!" ⟨"joy", 0.8⟩ []
    (by decide)⟩

/-- C2: for every text with no love-trigger substring, the returned
category is the lower-cased raw label looked up in the fixed table of
the spec (unknown labels falling back to neutral), and the raw score is
returned unchanged. -/
theorem C2_label_table (text : String) (raw : RawResult)
    (rest : List RawResult) (h : hasLoveWord text = false) :
    detect_emotion_ai text (raw :: rest) =
      Except.ok ⟨spec_category_of_label raw.label, raw.score⟩ := by
  simp [detect_emotion_ai, h, dict_get_label_map_eq_spec]

/-- Witness for C2: "I failed my exam" with raw result (sadness, 0.7)
is normalized to (sadness, 0.7); the table and score are preserved. -/
theorem C2_label_table_witness :
    hasLoveWord "I failed my exam" = false ∧
    detect_emotion_ai "I failed my exam" [⟨"sadness", 0.7⟩] =
      Except.ok ⟨spec_category_of_label "sadness", 0.7⟩ :=
  ⟨by decide, C2_label_table "I failed my exam" ⟨"sadness", 0.7⟩ [] (by decide)⟩

/-- C3: whatever the text and classifier output, a successful result of
`detect_emotion_ai` always carries one of the seven closed categories
{joy, sadness, anger, fear, love, surprise, neutral}. -/
theorem C3_closed_taxonomy (text : String) (modelOutput : List RawResult)
    (r : NormResult) (h : detect_emotion_ai text modelOutput = Except.ok r) :
    r.label ∈ emotion_categories := by
  cases modelOutput with
  | nil => simp [detect_emotion_ai] at h
  | cons raw rest =>
    by_cases hl : hasLoveWord text
    · rw [C1_love_override text raw rest hl] at h
      cases h
      simp [emotion_categories]
    · rw [C2_label_table text raw rest (by simp [hl])] at h
      cases h
      simp only [spec_category_of_label, emotion_categories]
      split_ifs <;> simp

/-- Witness for C3: a concrete successful classification lands in the
seven-category enumeration. -/
theorem C3_closed_taxonomy_witness :
    detect_emotion_ai "a fine day" [⟨"Surprise", 1⟩] =
      Except.ok ⟨"surprise", 1⟩ ∧
    ("surprise" : String) ∈ emotion_categories :=
  ⟨rfl, C3_closed_taxonomy "a fine day" [⟨"Surprise", 1⟩] ⟨"surprise", 1⟩ rfl⟩

/-- C4: `recent` returns the last `min n (length)` entries in
most-recent-first order (equivalently, the first `n` of the reversed
history); after appending E1..E8, `recent _ 5` is [E8,E7,E6,E5,E4]; and
on a history strictly shorter than the window it returns the whole
history reversed, without padding. `recent` is a pure function of the
history, so the history is not mutated. -/
theorem C4_recent (h : List HistoryEntry) (n m : Nat)
    (E1 E2 E3 E4 E5 E6 E7 E8 : HistoryEntry) :
    recent h n = h.reverse.take n ∧
    recent [E1, E2, E3, E4, E5, E6, E7, E8] 5 = [E8, E7, E6, E5, E4] ∧
    recent h (h.length + (m + 1)) = h.reverse := by
  refine ⟨?_, rfl, ?_⟩
  · rw [recent, List.take_reverse]
  · rw [recent, Nat.sub_eq_zero_of_le (by omega), List.drop_zero]

/-- C5: on an empty search result list, `get_spotify_full_track`
returns absence (None, None, None) and does not raise. -/
theorem C5_empty_results (emotion : String) (pick : Nat) :
    get_spotify_full_track emotion (Except.ok []) pick = Except.ok none := rfl

/-- C6 counterexample: a failing Spotify search is NOT treated as "no
track found": `get_spotify_full_track` has no try/except, so the
exception (modelled as `.error ()`) propagates out of the function
instead of yielding the no-track result `.ok none`. -/
theorem C6_counterexample :
    get_spotify_full_track "fear" (Except.error ()) 0 = Except.error () ∧
    get_spotify_full_track "fear" (Except.error ()) 0 ≠ Except.ok none :=
  ⟨rfl, fun h => nomatch h⟩

/-- C6 amended: if the outbound catalog search call fails, the failure
propagates out of `get_spotify_full_track` uncaught (and the display
block, which also has no exception handling, aborts with it); only an
empty result list is treated as "no track found". -/
theorem C6_amended (emotion : String) (pick : Nat) (e : Unit) :
    get_spotify_full_track emotion (Except.error e) pick =
      Except.error e := rfl

/-- C7: on blank or whitespace-only input the detect handler emits the
warning, makes no downstream call, and leaves the history and the
current emotion unchanged. -/
theorem C7_blank_input (userText : String) (modelOutput : List RawResult)
    (now : Nat) (s : SessionState) (h : strip_truthy userText = false) :
    detect_button_handler userText modelOutput now s =
      { state := s, messages := [.warning "Please enter some text."],
        calls := [], errored := false } := by
  simp [detect_button_handler, h]

/-- Witness for C7: submitting three spaces warns and changes nothing. -/
theorem C7_blank_input_witness :
    strip_truthy "   " = false ∧
    detect_button_handler "   " [⟨"joy", 0.8⟩] 7
        ⟨[⟨1, "joy", 1⟩], some "joy"⟩ =
      { state := ⟨[⟨1, "joy", 1⟩], some "joy"⟩,
        messages := [.warning "Please enter some text."],
        calls := [], errored := false } :=
  ⟨by decide, C7_blank_input "   " [⟨"joy", 0.8⟩] 7
    ⟨[⟨1, "joy", 1⟩], some "joy"⟩ (by decide)⟩

/-- C8: when the classifier returns no result, `detect_emotion_ai`
fails (the `[0]` raises) instead of guessing a category, the error
surfaces from the handler, and no history entry is appended and the
current emotion is untouched. -/
theorem C8_classifier_empty (text userText : String) (now : Nat)
    (s : SessionState) (h : strip_truthy userText = true) :
    detect_emotion_ai text [] = Except.error () ∧
    detect_button_handler userText [] now s =
      { state := s, messages := [], calls := [.classifier userText],
        errored := true } := by
  refine ⟨rfl, ?_⟩
  simp [detect_button_handler, h, detect_emotion_ai]

/-- Witness for C8: a nonblank input with an empty classifier output
errors and leaves the prior session state intact. -/
theorem C8_classifier_empty_witness :
    strip_truthy "hi there" = true ∧
    (detect_emotion_ai "hi there" [] = Except.error () ∧
     detect_button_handler "hi there" [] 9 ⟨[⟨1, "joy", 1⟩], some "joy"⟩ =
       { state := ⟨[⟨1, "joy", 1⟩], some "joy"⟩, messages := [],
         calls := [.classifier "hi there"], errored := true }) :=
  ⟨by decide, C8_classifier_empty "hi there" "hi there" 9
    ⟨[⟨1, "joy", 1⟩], some "joy"⟩ (by decide)⟩

/-- C10: the classifier is consulted before the love-trigger check:
even for a text containing a love trigger, an empty classifier result
makes `detect_emotion_ai` fail, and the handler records the classifier
call and errors without mutating the state — the love override never
short-circuits the classifier call. -/
theorem C10_classifier_first (text : String) (now : Nat) (s : SessionState)
    (_hlove : hasLoveWord text = true) (htrim : strip_truthy text = true) :
    detect_emotion_ai text [] = Except.error () ∧
    detect_button_handler text [] now s =
      { state := s, messages := [], calls := [.classifier text],
        errored := true } := by
  refine ⟨rfl, ?_⟩
  simp [detect_button_handler, htrim, detect_emotion_ai]

/-- Witness for C10: "I love you" has a love trigger, yet with an empty
classifier result the whole detection fails. -/
theorem C10_classifier_first_witness :
    hasLoveWord "I love you" = true ∧ strip_truthy "I love you" = true ∧
    (detect_emotion_ai "I love you" [] = Except.error () ∧
     detect_button_handler "I love you" [] 3 ⟨[], none⟩ =
       { state := ⟨[], none⟩, messages := [],
         calls := [.classifier "I love you"], errored := true }) :=
  ⟨by decide, by decide,
   C10_classifier_first "I love you" 3 ⟨[], none⟩ (by decide) (by decide)⟩

/-- C9 counterexample: the claim fails as stated: on a search response
whose selected track has an empty artist list, `get_spotify_full_track`
raises (IndexError from `track["artists"][0]`, modelled `.error ()`)
instead of returning all-absent or all-present. -/
theorem C9_counterexample :
    get_spotify_full_track "joy" (Except.ok [⟨"id1", "song1", []⟩]) 0 =
      Except.error () := rfl

/-- C9 amended: for every category and every search response in which
every track lists at least one artist, `get_spotify_full_track` returns
either all three components absent (on the empty list) or all three
present, with the selected track a member of the list, name and first
artist taken from that same track, and the embed locator equal to
"https://open.spotify.com/embed/track/" ++ its id. -/
theorem C9_track_shape (emotion : String) (tracks : List Track) (pick : Nat)
    (hart : tracks.all (fun t => !t.artists.isEmpty) = true) :
    (tracks = [] ∧
       get_spotify_full_track emotion (Except.ok tracks) pick =
         Except.ok none) ∨
    (∃ t, t ∈ tracks ∧ t.artists ≠ [] ∧
       get_spotify_full_track emotion (Except.ok tracks) pick =
         Except.ok (some ("https://open.spotify.com/embed/track/" ++ t.id,
           t.name, t.artists.headD ""))) := by
  cases tracks with
  | nil => exact Or.inl ⟨rfl, rfl⟩
  | cons t0 rest =>
    have hmem : (t0 :: rest).getD (pick % (t0 :: rest).length) t0 ∈
        t0 :: rest := getD_cons_mem t0 rest _
    have hne : ((t0 :: rest).getD (pick % (t0 :: rest).length) t0).artists
        ≠ [] := by
      have := List.all_eq_true.mp hart _ hmem
      simpa [List.isEmpty_iff] using this
    refine Or.inr ⟨(t0 :: rest).getD (pick % (t0 :: rest).length) t0,
      hmem, hne, ?_⟩
    show (match ((t0 :: rest).getD (pick % (t0 :: rest).length) t0).artists
        with
      | [] => (Except.error () : Except Unit (Option (String × String × String)))
      | a :: _ =>
        Except.ok (some ("https://open.spotify.com/embed/track/" ++
          ((t0 :: rest).getD (pick % (t0 :: rest).length) t0).id,
          ((t0 :: rest).getD (pick % (t0 :: rest).length) t0).name, a))) = _
    cases hx : ((t0 :: rest).getD (pick % (t0 :: rest).length) t0).artists with
    | nil => exact absurd hx hne
    | cons a tl => simp [hx]

/-- Witness for C9's amended theorem: one track, one artist, the result
is the all-present triple built from that track. -/
theorem C9_track_shape_witness :
    ([(⟨"abc", "Song", ["Artist"]⟩ : Track)].all
       (fun t => !t.artists.isEmpty) = true) ∧
    (([(⟨"abc", "Song", ["Artist"]⟩ : Track)] = [] ∧
        get_spotify_full_track "joy"
          (Except.ok [⟨"abc", "Song", ["Artist"]⟩]) 0 = Except.ok none) ∨
     (∃ t, t ∈ [(⟨"abc", "Song", ["Artist"]⟩ : Track)] ∧ t.artists ≠ [] ∧
        get_spotify_full_track "joy"
          (Except.ok [⟨"abc", "Song", ["Artist"]⟩]) 0 =
          Except.ok (some ("https://open.spotify.com/embed/track/" ++ t.id,
            t.name, t.artists.headD "")))) :=
  ⟨by decide, C9_track_shape "joy" [⟨"abc", "Song", ["Artist"]⟩] 0 (by decide)⟩
